import Mathlib

/-!
Shallow embedding of `packages/botbuilder-adapter-facebook/src/facebook_api.ts`:
the `FacebookAPI` class (constructor, `callAPI`, `get`, `post`,
`getAppSecretProof`).

JavaScript runtime values that flow through the client (request payloads,
decoded JSON response bodies, query-parameter values, transport errors) are
modelled by `JSValue`.  The two external collaborators are passed in as
functions: `hmac : String → String → String` stands for
`crypto.createHmac('sha256', key).update(msg).digest('hex')` (key first,
message second), and `transport : Request → JSValue × JSValue` stands for the
`request` library, returning the `(err, body)` pair it hands to the callback.
-/

/-- A JavaScript runtime value, as far as this client observes it:
`undefined`, `null`, booleans, numbers, strings and plain objects
(an object is its fields in insertion order). -/
inductive JSValue where
  | undefined : JSValue
  | null : JSValue
  | bool : Bool → JSValue
  | num : Int → JSValue
  | str : String → JSValue
  | obj : List (String × JSValue) → JSValue

/-- JavaScript truthiness: `undefined`, `null`, `false`, `0` and `""` are
falsy; every object is truthy. -/
def JSValue.truthy : JSValue → Bool
  | .undefined => false
  | .null => false
  | .bool b => b
  | .num n => n != 0
  | .str s => s != ""
  | .obj _ => true

/-- String interpolation of a value, as a template literal `${v}` renders it. -/
def JSValue.templateString : JSValue → String
  | .undefined => "undefined"
  | .null => "null"
  | .bool b => if b then "true" else "false"
  | .num n => toString n
  | .str s => s
  | .obj _ => "[object Object]"

/-- JavaScript property access `v[k]`: on `undefined` or `null` it throws a
`TypeError` (`none`); on an object it yields the field, or `undefined` when
the key is absent; on any other primitive it yields `undefined`. -/
def JSValue.getField : JSValue → String → Option JSValue
  | .undefined, _ => none
  | .null, _ => none
  | .obj fields, k => some (((fields.lookup k).getD .undefined))
  | .bool _, _ => some .undefined
  | .num _, _ => some .undefined
  | .str _, _ => some .undefined

/-- The private fields of the `FacebookAPI` class, as set by the constructor.
`secret` is typed `string` in TypeScript but callers may pass `undefined`,
which `getAppSecretProof` guards with `app_secret || ''`; it is therefore
modelled as `Option String`. -/
structure FacebookAPI where
  token : String
  secret : Option String
  api_host : String
  api_version : String

/-- JavaScript `s || ''` on a string-or-undefined: the only falsy string is
`""`, and `"" || ''` is `''`, so both `none` and `some ""` become `""`. -/
def jsOrEmpty : Option String → String
  | none => ""
  | some s => s

/-- The constructor: `if (!token) throw new Error('Token is required!')`, then
the four fields are stored verbatim.  The `token` argument is `Option String`
because an absent argument arrives as `undefined`; `!token` is true exactly
when `token` is `undefined` or the empty string.  Default parameters
`api_host = 'graph.facebook.com'` and `api_version = 'v3.2'` become Lean
default arguments. -/
def FacebookAPI.make (token : Option String) (secret : Option String)
    (api_host : String := "graph.facebook.com")
    (api_version : String := "v3.2") : Except String FacebookAPI :=
  match token with
  | none => .error "Token is required!"
  | some t =>
    if t = "" then .error "Token is required!"
    else .ok { token := t, secret := secret, api_host := api_host, api_version := api_version }

/-- `getAppSecretProof(access_token, app_secret)`: an HMAC-SHA256 hex digest,
keyed by `app_secret || ''`, over `access_token`.  The hash itself is the
external `crypto` collaborator, passed in as `hmac` (key first, message
second). -/
def getAppSecretProof (hmac : String → String → String)
    (access_token : String) (app_secret : Option String) : String :=
  hmac (jsOrEmpty app_secret) access_token

/-- The argument object handed to the `request` library. -/
structure Request where
  method : String
  json : Bool
  body : JSValue
  uri : String

/-- The query string built by `callAPI`: starting from `'?'`, each entry of
`query` appends `` `${key}=${query[key]}&` `` in insertion order
(`for (const key in query)`), with no URL-encoding. -/
def queryString (query : List (String × JSValue)) : String :=
  query.foldl (fun acc kv => acc ++ (kv.1 ++ "=" ++ kv.2.templateString ++ "&")) "?"

/-- The `request(...)` argument built by `callAPI`: the given method, JSON
encoding on, the payload as body, and the signed URI
`` `https://${this.api_host}/${this.api_version}${path}${queryString}access_token=${this.token}&appsecret_proof=${proof}` ``. -/
def callRequest (hmac : String → String → String) (api : FacebookAPI)
    (path : String) (method : String) (payload : JSValue)
    (query : List (String × JSValue)) : Request :=
  let proof := getAppSecretProof hmac api.token api.secret
  { method := method
    json := true
    body := payload
    uri := "https://" ++ api.api_host ++ "/" ++ api.api_version ++ path ++
      queryString query ++ "access_token=" ++ api.token ++
      "&appsecret_proof=" ++ proof }

/-- How one invocation of `callAPI` ends: the promise rejects with a reason,
resolves with a value, or the response callback throws (a `TypeError` from a
property access on `undefined`/`null`), settling the promise never. -/
inductive CallOutcome where
  | rejected : JSValue → CallOutcome
  | resolved : JSValue → CallOutcome
  | fault : CallOutcome

/-- The response callback `(err, res, body) => { if (err) reject(err); else
if (body.error) reject(body.error.message); else resolve(body); }`.
`res` is never read.  A `none` from a property access is the callback
throwing. -/
def handleResponse (err : JSValue) (body : JSValue) : CallOutcome :=
  if err.truthy then .rejected err
  else
    match body.getField "error" with
    | none => .fault
    | some e =>
      if e.truthy then
        match e.getField "message" with
        | none => .fault
        | some m => .rejected m
      else .resolved body

/-- `callAPI(path, method = 'POST', payload = {}, query = {})`: compute the
proof, build the query string and URI, issue one request, and settle the
promise from the `(err, body)` the transport delivers. -/
def FacebookAPI.callAPI (api : FacebookAPI) (hmac : String → String → String)
    (transport : Request → JSValue × JSValue) (path : String)
    (method : String := "POST") (payload : JSValue := .obj [])
    (query : List (String × JSValue) := []) : CallOutcome :=
  let out := transport (callRequest hmac api path method payload query)
  handleResponse out.1 out.2

/-- `get(path, query)`: `return this.callAPI(path, 'GET', {}, query)`. -/
def FacebookAPI.get (api : FacebookAPI) (hmac : String → String → String)
    (transport : Request → JSValue × JSValue) (path : String)
    (query : List (String × JSValue)) : CallOutcome :=
  api.callAPI hmac transport path "GET" (.obj []) query

/-- `post(path, body, query)`: `return this.callAPI(path, 'POST', body, query)`. -/
def FacebookAPI.post (api : FacebookAPI) (hmac : String → String → String)
    (transport : Request → JSValue × JSValue) (path : String)
    (body : JSValue) (query : List (String × JSValue)) : CallOutcome :=
  api.callAPI hmac transport path "POST" body query

/-- One public operation on a constructed client. -/
inductive Op where
  | callOp : String → String → JSValue → List (String × JSValue) → Op
  | getOp : String → List (String × JSValue) → Op
  | postOp : String → JSValue → List (String × JSValue) → Op
  | proofOp : Op

/-- What an operation returns to its caller. -/
inductive OpResult where
  | outcome : CallOutcome → OpResult
  | proofHex : String → OpResult

/-- Run one operation: each method body reads the fields and contains no
assignment to `this`, so the state handed on is the state received. -/
def runOp (hmac : String → String → String)
    (transport : Request → JSValue × JSValue) (api : FacebookAPI) :
    Op → FacebookAPI × OpResult
  | .callOp path method payload query =>
    (api, .outcome (api.callAPI hmac transport path method payload query))
  | .getOp path query => (api, .outcome (api.get hmac transport path query))
  | .postOp path body query => (api, .outcome (api.post hmac transport path body query))
  | .proofOp => (api, .proofHex (getAppSecretProof hmac api.token api.secret))

/-- The client state after a sequence of operations. -/
def runOps (hmac : String → String → String)
    (transport : Request → JSValue × JSValue) (api : FacebookAPI) :
    List Op → FacebookAPI
  | [] => api
  | op :: rest => runOps hmac transport (runOp hmac transport api op).1 rest

/-- Spec-side query serialization, from the spec wording: each query entry
serialized as `key=value&`, concatenated in the mapping's insertion order. -/
def specQueryString : List (String × JSValue) → String
  | [] => ""
  | kv :: rest => (kv.1 ++ "=" ++ kv.2.templateString ++ "&") ++ specQueryString rest

example : queryString [("a", .num 1), ("b", .num 2)] = "?a=1&b=2&" := by rfl

example : handleResponse .null (.obj [("error", .obj [("message", .str "Invalid token")])]) =
    .rejected (.str "Invalid token") := by rfl

theorem string_append_assoc (a b c : String) : a ++ b ++ c = a ++ (b ++ c) := by
  apply String.ext
  simp

theorem queryString_foldl (query : List (String × JSValue)) (acc : String) :
    List.foldl (fun acc kv => acc ++ (kv.1 ++ "=" ++ kv.2.templateString ++ "&")) acc query =
      acc ++ specQueryString query := by
  induction query generalizing acc with
  | nil => simp [specQueryString]
  | cons kv rest ih =>
    rw [List.foldl_cons, ih]
    show acc ++ (kv.1 ++ "=" ++ kv.2.templateString ++ "&") ++ specQueryString rest =
      acc ++ ((kv.1 ++ "=" ++ kv.2.templateString ++ "&") ++ specQueryString rest)
    rw [string_append_assoc]

theorem queryString_spec (query : List (String × JSValue)) :
    queryString query = "?" ++ specQueryString query :=
  queryString_foldl query "?"

theorem callRequest_uri (hmac : String → String → String) (api : FacebookAPI)
    (path method : String) (payload : JSValue) (query : List (String × JSValue)) :
    (callRequest hmac api path method payload query).uri =
      "https://" ++ api.api_host ++ "/" ++ api.api_version ++ path ++ "?" ++
        specQueryString query ++ "access_token=" ++ api.token ++
        "&appsecret_proof=" ++ getAppSecretProof hmac api.token api.secret := by
  show "https://" ++ api.api_host ++ "/" ++ api.api_version ++ path ++
      queryString query ++ "access_token=" ++ api.token ++
      "&appsecret_proof=" ++ getAppSecretProof hmac api.token api.secret = _
  rw [queryString_spec]
  simp only [← string_append_assoc]

theorem callAPI_handleResponse (hmac : String → String → String)
    (transport : Request → JSValue × JSValue) (api : FacebookAPI)
    (path method : String) (payload : JSValue) (query : List (String × JSValue))
    (err body : JSValue)
    (ht : transport (callRequest hmac api path method payload query) = (err, body)) :
    api.callAPI hmac transport path method payload query = handleResponse err body := by
  simp [FacebookAPI.callAPI, ht]

theorem truthy_getField_isSome (e : JSValue) (k : String) (h : e.truthy = true) :
    (e.getField k).isSome = true := by
  cases e <;> simp_all [JSValue.truthy, JSValue.getField]

theorem handleResponse_ne_fault (err body : JSValue)
    (hb1 : body ≠ JSValue.null) (hb2 : body ≠ JSValue.undefined) :
    handleResponse err body ≠ CallOutcome.fault := by
  by_cases he : err.truthy = true
  · simp [handleResponse, he]
  · have hb : ∃ e, body.getField "error" = some e := by
      cases body <;> simp_all [JSValue.getField]
    obtain ⟨e, hbe⟩ := hb
    by_cases het : e.truthy = true
    · obtain ⟨m, hm⟩ := Option.isSome_iff_exists.mp (truthy_getField_isSome e "message" het)
      simp [handleResponse, he, hbe, het, hm]
    · simp [handleResponse, he, hbe, het]

/-- C1 counterexample: with no transport error and decoded body
`{ "error": {} }` — a body that does not contain an error field with a
message — `callAPI` rejects with `undefined` instead of resolving to the full
decoded body, contradicting the claim's final clause. -/
theorem callAPI_error_without_message_not_resolved :
    (FacebookAPI.mk "tok" (some "sec") "graph.facebook.com" "v3.2").callAPI
        (fun k m => k ++ "#" ++ m)
        (fun _ => (JSValue.null, JSValue.obj [("error", JSValue.obj [])]))
        "/me/messages" "POST" (JSValue.obj []) [] =
      CallOutcome.rejected JSValue.undefined ∧
    CallOutcome.rejected JSValue.undefined ≠
      CallOutcome.resolved (JSValue.obj [("error", JSValue.obj [])]) := by
  refine ⟨rfl, ?_⟩
  intro h
  exact CallOutcome.noConfusion h

/-- C1 (amended): for every invocation of `callAPI`, the outcomes are
resolved in priority order: a truthy transport error rejects with that error
value unmodified, regardless of the body; otherwise, when the decoded body is
not `null`/`undefined` (so reading its `error` field yields a value), a truthy
`error` field rejects with the value of `error.message` (whatever it is),
and only a falsy `error` field resolves to the full decoded body. -/
theorem callAPI_outcome_priority (hmac : String → String → String)
    (transport : Request → JSValue × JSValue) (api : FacebookAPI)
    (path method : String) (payload : JSValue) (query : List (String × JSValue))
    (err body : JSValue)
    (ht : transport (callRequest hmac api path method payload query) = (err, body)) :
    (err.truthy = true →
      api.callAPI hmac transport path method payload query = .rejected err) ∧
    (err.truthy = false →
      ∀ e, body.getField "error" = some e →
        (e.truthy = true →
          ∀ m, e.getField "message" = some m →
            api.callAPI hmac transport path method payload query = .rejected m) ∧
        (e.truthy = false →
          api.callAPI hmac transport path method payload query = .resolved body)) := by
  rw [callAPI_handleResponse hmac transport api path method payload query err body ht]
  refine ⟨?_, ?_⟩
  · intro h1
    simp [handleResponse, h1]
  · intro h1 e he
    refine ⟨?_, ?_⟩
    · intro h2 m hm
      simp [handleResponse, h1, he, h2, hm]
    · intro h2
      simp [handleResponse, h1, he, h2]

/-- C1 witness: a transport error is rejected unmodified even when the body is
`undefined` (the body is not inspected), and a successful transport delivering
body `{ "id": "123" }` resolves to that body. -/
theorem callAPI_outcome_priority_witness :
    ((FacebookAPI.mk "tok" (some "sec") "graph.facebook.com" "v3.2").callAPI
        (fun k m => k ++ "#" ++ m)
        (fun _ => (JSValue.str "connect ECONNREFUSED", JSValue.undefined))
        "/me" "POST" (JSValue.obj []) [] =
      CallOutcome.rejected (JSValue.str "connect ECONNREFUSED")) ∧
    ((FacebookAPI.mk "tok" (some "sec") "graph.facebook.com" "v3.2").callAPI
        (fun k m => k ++ "#" ++ m)
        (fun _ => (JSValue.null, JSValue.obj [("id", JSValue.str "123")]))
        "/me" "GET" (JSValue.obj []) [] =
      CallOutcome.resolved (JSValue.obj [("id", JSValue.str "123")])) :=
  ⟨(callAPI_outcome_priority _ _ _ _ _ _ _
      (JSValue.str "connect ECONNREFUSED") JSValue.undefined rfl).1 rfl,
   ((callAPI_outcome_priority _ _ _ _ _ _ _ JSValue.null
      (JSValue.obj [("id", JSValue.str "123")]) rfl).2 rfl
      JSValue.undefined rfl).2 rfl⟩

/-- C2: the request URL is exactly the concatenation of `https://`, the
configured host, `/`, the configured api_version, the given path, a literal
`?`, each query entry serialized as `key=value&` in insertion order with no
URL-encoding, then `access_token=<token>&appsecret_proof=<proof>`; in
particular for query `{a: 1, b: 2}` the URL contains `a=1&b=2&` immediately
followed by the access_token and appsecret_proof parameters. -/
theorem callAPI_uri_construction (hmac : String → String → String)
    (api : FacebookAPI) (path method : String) (payload : JSValue)
    (query : List (String × JSValue)) :
    ((callRequest hmac api path method payload query).uri =
      "https://" ++ api.api_host ++ "/" ++ api.api_version ++ path ++ "?" ++
        specQueryString query ++ "access_token=" ++ api.token ++
        "&appsecret_proof=" ++ getAppSecretProof hmac api.token api.secret) ∧
    ∃ p, (callRequest hmac api path method payload
        [("a", JSValue.num 1), ("b", JSValue.num 2)]).uri =
      p ++ "a=1&b=2&" ++ "access_token=" ++ api.token ++
        "&appsecret_proof=" ++ getAppSecretProof hmac api.token api.secret := by
  refine ⟨callRequest_uri hmac api path method payload query, ?_⟩
  refine ⟨"https://" ++ api.api_host ++ "/" ++ api.api_version ++ path ++ "?", ?_⟩
  rw [callRequest_uri hmac api path method payload
    [("a", JSValue.num 1), ("b", JSValue.num 2)]]
  have hq : specQueryString [("a", JSValue.num 1), ("b", JSValue.num 2)] = "a=1&b=2&" := by
    rfl
  rw [hq]

/-- C3: construction with an absent or empty token throws
`Error('Token is required!')`; construction with any non-empty token succeeds
and stores all four fields verbatim. -/
theorem make_requires_token (secret : Option String) (host ver : String) :
    (FacebookAPI.make none secret host ver = Except.error "Token is required!") ∧
    (FacebookAPI.make (some "") secret host ver = Except.error "Token is required!") ∧
    (∀ t : String, t ≠ "" →
      FacebookAPI.make (some t) secret host ver =
        Except.ok ⟨t, secret, host, ver⟩) := by
  refine ⟨rfl, rfl, ?_⟩
  intro t ht
  simp [FacebookAPI.make, ht]

/-- C3 witness: the non-empty token "tok" constructs successfully, storing all
four fields verbatim. -/
theorem make_requires_token_witness :
    FacebookAPI.make (some "tok") (some "sec") "graph.facebook.com" "v3.2" =
      Except.ok ⟨"tok", some "sec", "graph.facebook.com", "v3.2"⟩ :=
  (make_requires_token (some "sec") "graph.facebook.com" "v3.2").2.2 "tok" (by decide)

/-- C4: `getAppSecretProof` is deterministic — two evaluations at the same
(token, secret) give the same hex string — and an absent secret yields the
same proof as the empty-string secret, for every hash collaborator. -/
theorem getAppSecretProof_pure (hmac : String → String → String)
    (token : String) (secret : Option String) :
    (getAppSecretProof hmac token secret = getAppSecretProof hmac token secret) ∧
    (getAppSecretProof hmac token none = getAppSecretProof hmac token (some "")) :=
  ⟨rfl, rfl⟩

/-- C5: `get(path, query)` delegates to `callAPI(path, 'GET', {}, query)` and
`post(path, body, query)` delegates to `callAPI(path, 'POST', body, query)`,
with identical outcomes for all inputs. -/
theorem get_post_delegate (hmac : String → String → String)
    (transport : Request → JSValue × JSValue) (api : FacebookAPI)
    (path : String) (body : JSValue) (query : List (String × JSValue)) :
    (api.get hmac transport path query =
      api.callAPI hmac transport path "GET" (JSValue.obj []) query) ∧
    (api.post hmac transport path body query =
      api.callAPI hmac transport path "POST" body query) :=
  ⟨rfl, rfl⟩

/-- C6: omitted optional parameters take exactly these defaults: `host =
'graph.facebook.com'` and `api_version = 'v3.2'` at construction; in
`callAPI`, `method = 'POST'`, `payload = {}` (empty object) and `query = {}`
(empty mapping). -/
theorem default_arguments (token secret : Option String)
    (hmac : String → String → String) (transport : Request → JSValue × JSValue)
    (api : FacebookAPI) (path : String) :
    (FacebookAPI.make token secret =
      FacebookAPI.make token secret "graph.facebook.com" "v3.2") ∧
    (api.callAPI hmac transport path =
      api.callAPI hmac transport path "POST" (JSValue.obj []) []) :=
  ⟨rfl, rfl⟩

/-- C7: the client configuration is immutable after construction — no method
body assigns to the fields, so after any sequence of operations the stored
state equals the initial state. -/
theorem config_immutable (hmac : String → String → String)
    (transport : Request → JSValue × JSValue) (api : FacebookAPI)
    (ops : List Op) :
    runOps hmac transport api ops = api := by
  induction ops generalizing api with
  | nil => rfl
  | cons op rest ih =>
    have h1 : (runOp hmac transport api op).1 = api := by cases op <;> rfl
    rw [runOps, h1, ih]

/-- C8: when the transport succeeds and the body has a truthy `error` field
whose `message` property is absent (reads as `undefined`), `callAPI` rejects
and the reason is `undefined` — never equal to a string rejection — showing
the check is on the truthiness of `error`, not on the presence of a message. -/
theorem callAPI_truthy_error_without_message (hmac : String → String → String)
    (transport : Request → JSValue × JSValue) (api : FacebookAPI)
    (path method : String) (payload : JSValue) (query : List (String × JSValue))
    (err body e : JSValue)
    (ht : transport (callRequest hmac api path method payload query) = (err, body))
    (hf : err.truthy = false)
    (he : body.getField "error" = some e)
    (het : e.truthy = true)
    (hm : e.getField "message" = some JSValue.undefined) :
    (api.callAPI hmac transport path method payload query =
      CallOutcome.rejected JSValue.undefined) ∧
    ∀ s : String, CallOutcome.rejected JSValue.undefined ≠
      CallOutcome.rejected (JSValue.str s) := by
  refine ⟨?_, ?_⟩
  · rw [callAPI_handleResponse hmac transport api path method payload query err body ht]
    simp [handleResponse, hf, he, het, hm]
  · intro s h
    injection h with h1
    exact JSValue.noConfusion h1

/-- C8 witness: bodies `{ "error": {} }` and `{ "error": true }` both reject
with `undefined`. -/
theorem callAPI_truthy_error_without_message_witness :
    ((FacebookAPI.mk "tok" none "graph.facebook.com" "v3.2").callAPI
        (fun k m => k ++ "#" ++ m)
        (fun _ => (JSValue.null, JSValue.obj [("error", JSValue.obj [])]))
        "/page" "POST" (JSValue.obj []) [] =
      CallOutcome.rejected JSValue.undefined) ∧
    ((FacebookAPI.mk "tok" none "graph.facebook.com" "v3.2").callAPI
        (fun k m => k ++ "#" ++ m)
        (fun _ => (JSValue.null, JSValue.obj [("error", JSValue.bool true)]))
        "/page" "POST" (JSValue.obj []) [] =
      CallOutcome.rejected JSValue.undefined) :=
  ⟨(callAPI_truthy_error_without_message _ _ _ _ _ _ _ JSValue.null
      (JSValue.obj [("error", JSValue.obj [])])
      (JSValue.obj []) rfl rfl rfl rfl rfl).1,
   (callAPI_truthy_error_without_message _ _ _ _ _ _ _ JSValue.null
      (JSValue.obj [("error", JSValue.bool true)])
      (JSValue.bool true) rfl rfl rfl rfl rfl).1⟩

/-- C9: with no transport error, a `null`/`undefined` decoded body makes the
response callback throw on `body.error` (the call neither resolves nor
rejects), while any other body never faults. -/
theorem callAPI_null_body_faults (hmac : String → String → String)
    (transport : Request → JSValue × JSValue) (api : FacebookAPI)
    (path method : String) (payload : JSValue) (query : List (String × JSValue))
    (err body : JSValue)
    (ht : transport (callRequest hmac api path method payload query) = (err, body))
    (hf : err.truthy = false) :
    ((body = JSValue.null ∨ body = JSValue.undefined) →
      api.callAPI hmac transport path method payload query = CallOutcome.fault) ∧
    (body ≠ JSValue.null → body ≠ JSValue.undefined →
      api.callAPI hmac transport path method payload query ≠ CallOutcome.fault) := by
  rw [callAPI_handleResponse hmac transport api path method payload query err body ht]
  refine ⟨?_, ?_⟩
  · intro hb
    rcases hb with hb | hb <;> subst hb <;> simp [handleResponse, hf, JSValue.getField]
  · intro hb1 hb2
    exact handleResponse_ne_fault err body hb1 hb2

/-- C9 witness: a successful transport with a `null` body faults. -/
theorem callAPI_null_body_faults_witness :
    (FacebookAPI.mk "tok" none "graph.facebook.com" "v3.2").callAPI
        (fun k m => k ++ "#" ++ m)
        (fun _ => (JSValue.null, JSValue.null))
        "/me" "POST" (JSValue.obj []) [] = CallOutcome.fault :=
  (callAPI_null_body_faults _ _ _ _ _ _ _ JSValue.null JSValue.null rfl rfl).1 (Or.inl rfl)

/-- C10: with an empty query mapping the serialized query string is exactly
the single character `?`, so `access_token=<token>&appsecret_proof=<proof>`
follows the `?` immediately, with no intervening `&` or key=value pairs. -/
theorem callAPI_empty_query_uri (hmac : String → String → String)
    (api : FacebookAPI) (path method : String) (payload : JSValue) :
    (queryString [] = "?") ∧
    ((callRequest hmac api path method payload []).uri =
      "https://" ++ api.api_host ++ "/" ++ api.api_version ++ path ++ "?" ++
        "access_token=" ++ api.token ++ "&appsecret_proof=" ++
        getAppSecretProof hmac api.token api.secret) :=
  ⟨rfl, rfl⟩
